import Mathlib

/-!
Shallow embedding of the NSIDC-MIZ-Comparison grid pipeline
(`src/modules/compare.py` and `src/modules/io.py`).

Modelling conventions:
* A 2-D numpy concentration array is modelled flattened, as a function
  `Fin n → ℚ` (`Grid n`); every operation the claims mention is cellwise
  or a cellwise reduction, so the 2-D shape is irrelevant.
* A netCDF masked array cell is `Option ℚ` (`none` = masked).
* Python exceptions are modelled with `Except MizError`; the constructors
  of `MizError` name the error conditions (the source raises plain Python
  exceptions — `AssertionError` for `assert`, `TypeError` from `None / 0`
  in `_median_grid`, `FileNotFoundError` / decode errors from readers —
  at exactly the corresponding points).
* A `datetime` value is carried by its formatted renderings: `y` for
  `%Y`, `ymd` for `%Y%m%d`, `yj` for `%Y%j`, plus the flag `before2019`
  standing for `dt < datetime(2019, 1, 1)`.
* The on-disk `.npy` store is a function `String → Option (Grid n)` from
  full file names to stored arrays; `np.save` is modelled by a pointwise
  update, `os.path.exists` by `Option.isSome`, `os.path.join` by
  inserting `/`.
* `print` output is collected in a `List String`; `joblib.Parallel` over
  a date range is modelled as the sequential fold over the dates (the
  per-date jobs touch disjoint file names, threading backend).
-/

/-- Error conditions raised by the source code (see module doc). -/
inductive MizError where
  /-- A failed Python `assert`. -/
  | assertionFailed : MizError
  /-- A missing file (`np.load` / `nc.Dataset` / `gpd.read_file` on an absent path). -/
  | notFound : MizError
  /-- Malformed source content raised while decoding an input file. -/
  | decodeError : MizError
  /-- `KeyError` from `icecode_mapping[value]` on an unknown ICECODE label. -/
  | unknownCategory : MizError
  /-- The `None / 0` failure of `_median_grid` when zero dates succeeded
      (the spec taxonomy's `EmptyRangeError`). -/
  | emptyRange : MizError
deriving DecidableEq, Repr

/-- A dense 2-D numpy array of concentration values, flattened to `n` cells. -/
abbrev Grid (n : ℕ) := Fin n → ℚ

/-- A netCDF masked array, flattened: `none` is a masked cell. -/
abbrev MGrid (n : ℕ) := Fin n → Option ℚ

/-- The on-disk `.npy` store: full file name to stored array. -/
abbrev MizStore (n : ℕ) := String → Option (Grid n)

/-- `np.save(grid_fname, grid)`: pointwise update of the store. -/
def store_update {n : ℕ} (st : MizStore n) (k : String) (g : Grid n) : MizStore n :=
  fun k' => if k' = k then some g else st k'

/-! ## compare.py -/

/-- compare.py line 11: `GRID_CELL_AREA = 25*25` (each grid cell is 25 km × 25 km). -/
def GRID_CELL_AREA : ℕ := 25 * 25

/-- compare.py line 55: `median_percentage = 0.5`. -/
def median_percentage : ℚ := 1 / 2

/-- compare.py line 61: `mask = np.where(grid >= thresh, True, False)`, the
cellwise threshold mask used by `_median_grid` (the spec's `threshold_mask`). -/
def threshold_mask {n : ℕ} (grid : Grid n) (thresh : ℚ) : Fin n → Bool :=
  fun i => decide (grid i ≥ thresh)

/-- The body of the `for date in pd.date_range(...)` loop of `_median_grid`
(compare.py lines 58-67): on a successful retrieval, add the threshold mask
onto the sum grid (creating it from the mask on the first success) and bump
`counter`; a raised retrieval is caught and skipped. -/
def median_step {n : ℕ} (thresh : ℚ) (acc : Option (Fin n → ℕ) × ℕ)
    (r : Except MizError (Grid n)) : Option (Fin n → ℕ) × ℕ :=
  match r with
  | .error _ => acc
  | .ok grid =>
    let mask := threshold_mask grid thresh
    let sum_grid : Fin n → ℕ :=
      match acc.1 with
      | some s => fun i => s i + (if mask i then 1 else 0)
      | none => fun i => if mask i then 1 else 0
    (some sum_grid, acc.2 + 1)

/-- compare.py lines 40-71, `_median_grid`: fold the per-date retrieval
outcomes (one `Except` per date of `pd.date_range(start, end)`), then return
`np.where(sum_grid / counter >= median_percentage, True, False)`.  When no
date succeeded, `sum_grid` is still `None` and `sum_grid / counter` raises
(modelled as `MizError.emptyRange`). -/
def _median_grid {n : ℕ} (retrievals : List (Except MizError (Grid n)))
    (thresh : ℚ) : Except MizError (Fin n → Bool) :=
  match retrievals.foldl (median_step thresh) (none, 0) with
  | (none, _) => .error .emptyRange
  | (some sum_grid, counter) =>
    .ok fun i => decide ((sum_grid i : ℚ) / (counter : ℚ) ≥ median_percentage)

/-- The retrievals whose `retrieval_func` call did not raise, in order. -/
def successes {n : ℕ} (retrievals : List (Except MizError (Grid n))) : List (Grid n) :=
  retrievals.filterMap Except.toOption

/-- compare.py lines 74-108, `calculate_ice_area`: assert both ranges are
ordered, then count cells inside each product's inclusive range that also
satisfy `cdr_grid >= 0`, and scale both counts by `GRID_CELL_AREA`
(`verbose` only gates two prints and is omitted). -/
def calculate_ice_area {n : ℕ} (cdr_grid nic_grid : Grid n)
    (min_sic_nic max_sic_nic min_sic_cdr max_sic_cdr : ℚ) :
    Except MizError (ℕ × ℕ) :=
  if ¬ (min_sic_nic ≤ max_sic_nic) then .error .assertionFailed
  else if ¬ (min_sic_cdr ≤ max_sic_cdr) then .error .assertionFailed
  else
    let cdr_cell_count :=
      (Finset.univ.filter fun i =>
        cdr_grid i ≥ min_sic_cdr ∧ cdr_grid i ≤ max_sic_cdr ∧ cdr_grid i ≥ 0).card
    let nic_cell_count :=
      (Finset.univ.filter fun i =>
        nic_grid i ≥ min_sic_nic ∧ nic_grid i ≤ max_sic_nic ∧ cdr_grid i ≥ 0).card
    .ok (cdr_cell_count * GRID_CELL_AREA, nic_cell_count * GRID_CELL_AREA)

/-- compare.py lines 111-140, `calculate_ice_footprint_diff`: threshold both
grids over their inclusive ranges, then populate a `np.zeros_like(cdr_grid)`
grid with 1 (nic ∧ cdr), 2 (nic ∧ ¬cdr), 3 (¬nic ∧ cdr), 4 (¬nic ∧ ¬cdr);
the four masked assignments are disjoint, so they collapse to one cellwise
conditional whose final `0` is the untouched `zeros_like` fill. -/
def calculate_ice_footprint_diff {n : ℕ} (nic_grid : Grid n) (min_nic max_nic : ℚ)
    (cdr_grid : Grid n) (min_cdr max_cdr : ℚ) : Grid n :=
  let cdr_mask : Fin n → Bool := fun i => decide (cdr_grid i ≥ min_cdr ∧ cdr_grid i ≤ max_cdr)
  let nic_mask : Fin n → Bool := fun i => decide (nic_grid i ≥ min_nic ∧ nic_grid i ≤ max_nic)
  fun i =>
    if nic_mask i && cdr_mask i then 1
    else if nic_mask i && !cdr_mask i then 2
    else if !nic_mask i && cdr_mask i then 3
    else if !nic_mask i && !cdr_mask i then 4
    else 0

/-! ## io.py -/

/-- A `datetime` value as io.py consumes it: its `%Y`, `%Y%m%d` and `%Y%j`
renderings plus the `dt < datetime(2019, 1, 1)` comparison of
`datetime_to_cdr_fname`. -/
structure PyDate where
  y : String
  ymd : String
  yj : String
  before2019 : Bool
deriving DecidableEq, Repr

/-- io.py lines 19-25, `check_hemisphere`:
`assert hemisphere in ['north', 'south']`. -/
def check_hemisphere (hemisphere : String) : Except MizError Unit :=
  if hemisphere = "north" ∨ hemisphere = "south" then .ok () else .error .assertionFailed

/-- io.py lines 47-64, `datetime_to_cdr_fname`: the FTP directory and file
name of a CDR netCDF; files before the 2019-01-01 cutoff use the
G02202_V3/f17 naming, later ones G10016/f18. -/
def datetime_to_cdr_fname (d : PyDate) (hemisphere : String) :
    Except MizError (String × String) := do
  check_hemisphere hemisphere
  let hemisphere_letter := hemisphere.take 1
  if d.before2019 then
    .ok ("ftp://sidads.colorado.edu/pub/DATASETS/NOAA/G02202_V3/" ++ hemisphere ++ "/daily/" ++
           d.y ++ "/",
         "seaice_conc_daily_" ++ hemisphere_letter ++ "h_f17_" ++ d.ymd ++ "_v03r01.nc")
  else
    .ok ("ftp://sidads.colorado.edu/pub/DATASETS/NOAA/G10016/" ++ hemisphere ++ "/daily/" ++
           d.y ++ "/",
         "seaice_conc_daily_icdr_" ++ hemisphere_letter ++ "h_f18_" ++ d.ymd ++ "_v01r00.nc")

/-- io.py lines 67-78, `datetime_to_nic_fname`: the FTP directory and zip
file name of an NIC shapefile archive. -/
def datetime_to_nic_fname (d : PyDate) (hemisphere : String) :
    Except MizError (String × String) := do
  check_hemisphere hemisphere
  let hemisphere_letter := hemisphere.take 1
  .ok ("ftp://sidads.colorado.edu/DATASETS/NOAA/G10017/" ++ hemisphere ++ "/" ++ d.y ++ "/",
       "nic_miz" ++ d.yj ++ hemisphere_letter ++ "c_pl_a.zip")

/-- io.py lines 81-89, `datetime_to_cdr_fname_grid`: the `.npy` cache file
name `YYYYMMDD_<hemisphere>_cdr.npy`. -/
def datetime_to_cdr_fname_grid (d : PyDate) (hemisphere : String) : Except MizError String := do
  check_hemisphere hemisphere
  .ok (d.ymd ++ "_" ++ hemisphere ++ "_cdr.npy")

/-- io.py lines 92-100, `datetime_to_nic_fname_grid`: the `.npy` cache file
name `YYYYMMDD_<hemisphere>_nic.npy`. -/
def datetime_to_nic_fname_grid (d : PyDate) (hemisphere : String) : Except MizError String := do
  check_hemisphere hemisphere
  .ok (d.ymd ++ "_" ++ hemisphere ++ "_nic.npy")

/-- A file-system action of `download_range`; an error return carries no
actions, so "raises before any file-system work" is visible in the type. -/
inductive FsEffect where
  | mkdir (dir : String) : FsEffect
  | download (url dest : String) : FsEffect
deriving DecidableEq, Repr

/-- The `for download_date in pd.date_range(...)` loop of `download_range`
(io.py lines 121-138): per date, derive the FTP path (outside the `try`, so
a raising formatter propagates), skip when `no_clobber` and the file exists,
otherwise record the download; `urlretrieve` failures are caught and only
logged, which the effect list does not record. -/
def download_range_loop (sftp_formatter : PyDate → String → Except MizError (String × String))
    (dates : List PyDate) (local_dir hemisphere : String)
    (fs_exists : String → Bool) (no_clobber : Bool) : Except MizError (List FsEffect) :=
  match dates with
  | [] => .ok []
  | d :: rest => do
    let f ← sftp_formatter d hemisphere
    let file_full := local_dir ++ "/" ++ f.2
    let effs := if no_clobber && fs_exists file_full then []
                else [FsEffect.download (f.1 ++ f.2) file_full]
    let rest_effs ← download_range_loop sftp_formatter rest local_dir hemisphere fs_exists
      no_clobber
    .ok (effs ++ rest_effs)

/-- io.py lines 103-138, `download_range`: check the hemisphere, make the
local directory, then run the per-date download loop. -/
def download_range (sftp_formatter : PyDate → String → Except MizError (String × String))
    (dates : List PyDate) (local_dir hemisphere : String)
    (fs_exists : String → Bool) (no_clobber : Bool) : Except MizError (List FsEffect) := do
  check_hemisphere hemisphere
  let effs ← download_range_loop sftp_formatter dates local_dir hemisphere fs_exists no_clobber
  .ok (FsEffect.mkdir local_dir :: effs)

/-- io.py lines 161-172, `get_nic`: check the hemisphere, derive the cache
file name and `np.load` it (`np_load` models the `.npy` directory contents;
a missing file raises). -/
def get_nic {n : ℕ} (np_load : MizStore n) (d : PyDate) (dirname hemisphere : String) :
    Except MizError (Grid n) := do
  check_hemisphere hemisphere
  let fname ← datetime_to_nic_fname_grid d hemisphere
  let full_fname := dirname ++ "/" ++ fname
  match np_load full_fname with
  | some g => .ok g
  | none => .error .notFound

/-- io.py lines 175-186, `get_cdr`: as `get_nic` with the CDR cache name. -/
def get_cdr {n : ℕ} (np_load : MizStore n) (d : PyDate) (dirname hemisphere : String) :
    Except MizError (Grid n) := do
  check_hemisphere hemisphere
  let fname ← datetime_to_cdr_fname_grid d hemisphere
  let full_fname := dirname ++ "/" ++ fname
  match np_load full_fname with
  | some g => .ok g
  | none => .error .notFound

/-- io.py lines 248-250: `grid = grid.filled(0); grid[grid < 0] = 0` — fill
masked cells with 0, then zero every negative flag value (the squeeze of the
`seaice_conc_cdr` variable is absorbed by the flattened grid model). -/
def clean_cdr_grid {n : ℕ} (raw : MGrid n) : Grid n :=
  let filled : Grid n := fun i => (raw i).getD 0
  fun i => if filled i < 0 then 0 else filled i

/-- The body of the `try` of `_cdr_to_np_grid` (io.py lines 242-252):
skip if the `.npy` cache file exists and `clobber` is false, otherwise read
the netCDF (`nc_read` models `nc.Dataset` + the `seaice_conc_cdr` variable;
it raises on a missing or malformed file), clean it and save it.  The `Bool`
reports whether the conversion work ran. -/
def _cdr_to_np_grid_body {n : ℕ} (d : PyDate) (input_folder hemisphere : String) (clobber : Bool)
    (nc_read : String → Except MizError (MGrid n)) (store : MizStore n) :
    Except MizError (MizStore n × Bool) := do
  let gfname ← datetime_to_cdr_fname_grid d hemisphere
  let grid_fname := input_folder ++ "/" ++ gfname
  if clobber ∨ (store grid_fname).isNone then
    let fnames ← datetime_to_cdr_fname d hemisphere
    let raw ← nc_read (input_folder ++ "/" ++ fnames.2)
    let grid := clean_cdr_grid raw
    .ok (store_update store grid_fname grid, true)
  else
    .ok (store, false)

/-- `print(f"Running {dt} for cdr")` of io.py line 240. -/
def run_log_cdr (ymd : String) : String := "Running " ++ ymd ++ " for cdr"

/-- `print(f"Running {dt} for nic")` of io.py line 271. -/
def run_log_nic (ymd : String) : String := "Running " ++ ymd ++ " for nic"

/-- The textual rendering of a caught exception in the per-date logs. -/
def err_text : MizError → String
  | .assertionFailed => "AssertionError"
  | .notFound => "FileNotFoundError"
  | .decodeError => "DecodeError"
  | .unknownCategory => "KeyError"
  | .emptyRange => "TypeError"

/-- The `print` of the per-date `except` blocks (io.py lines 255 and 314),
`COULDNT RUN {dt} BECAUSE {e}` (apostrophe elided from the model text). -/
def fail_log (ymd : String) (e : MizError) : String :=
  "COULDNT RUN " ++ ymd ++ " BECAUSE " ++ err_text e

/-- io.py lines 228-255, `_cdr_to_np_grid`: hemisphere check (outside the
`try`), verbose-gated progress print, then the body with every exception
caught and, only when `verbose`, printed with the date and cause. -/
def _cdr_to_np_grid {n : ℕ} (d : PyDate) (input_folder hemisphere : String)
    (clobber verbose : Bool) (nc_read : String → Except MizError (MGrid n))
    (store : MizStore n) : Except MizError (MizStore n × Bool × List String) :=
  match check_hemisphere hemisphere with
  | .error e => .error e
  | .ok _ =>
    match _cdr_to_np_grid_body d input_folder hemisphere clobber nc_read store with
    | .ok (st, computed) => .ok (st, computed, if verbose then [run_log_cdr d.ymd] else [])
    | .error e => .ok (store, false,
        (if verbose then [run_log_cdr d.ymd] else []) ++
          (if verbose then [fail_log d.ymd e] else []))

/-- `os.path.splitext(s)[1]`: the final extension of a path, with its dot;
empty when the name has no dot. -/
def splitext_ext (s : String) : String :=
  if ('.' ∈ s.data) then
    String.mk ('.' :: (s.data.reverse.takeWhile fun c => ¬ (c = '.')).reverse)
  else String.mk []

/-- One row of the GeoDataFrame read from an NIC zip: an opaque geometry
handle (reprojection via `to_crs` only rewrites geometries, so it is
absorbed into the handle) and the `ICECODE` attribute. -/
structure GeoRow where
  geometry : ℕ
  ICECODE : String
deriving DecidableEq, Repr

/-- io.py lines 281-284: `icecode_mapping = {"CT18": .18, "CT81": .8}`;
indexing with an unknown label raises `KeyError`. -/
def icecode_mapping (value : String) : Except MizError ℚ :=
  if value = "CT18" then .ok (18 / 100)
  else if value = "CT81" then .ok (8 / 10)
  else .error .unknownCategory

/-- The body of the `try` of `_nic_to_np_grid` (io.py lines 274-311): skip
if the `.npy` cache exists and `clobber` is false; otherwise assert the
source name has a `.zip` extension, read the zipped shapefile (`read_nic`
models `gpd.read_file`), map every `ICECODE` through `icecode_mapping`, burn
the shapes (`rasterize` models `rasterio.features.rasterize` with the
`cdr_meta`-derived transform, fill -1 and output shape already applied) and
save.  The `Bool` reports whether the conversion work ran. -/
def _nic_to_np_grid_body {n : ℕ} (d : PyDate) (input_folder hemisphere : String) (clobber : Bool)
    (read_nic : String → Except MizError (List GeoRow))
    (rasterize : List (ℕ × ℚ) → Grid n) (store : MizStore n) :
    Except MizError (MizStore n × Bool) := do
  let gfname ← datetime_to_nic_fname_grid d hemisphere
  let grid_fname := input_folder ++ "/" ++ gfname
  if clobber ∨ (store grid_fname).isNone then
    let fnames ← datetime_to_nic_fname d hemisphere
    let nic_full_fname := input_folder ++ "/" ++ fnames.2
    if splitext_ext nic_full_fname = ".zip" then
      let gdf ← read_nic nic_full_fname
      let shapes ← gdf.mapM fun row =>
        (icecode_mapping row.ICECODE).map fun v => (row.geometry, v)
      .ok (store_update store grid_fname (rasterize shapes), true)
    else
      .error .assertionFailed
  else
    .ok (store, false)

/-- io.py lines 258-314, `_nic_to_np_grid`: hemisphere check (outside the
`try`), verbose-gated progress print, then the body with every exception
caught and, only when `verbose`, printed with the date and cause. -/
def _nic_to_np_grid {n : ℕ} (d : PyDate) (input_folder hemisphere : String)
    (clobber verbose : Bool) (read_nic : String → Except MizError (List GeoRow))
    (rasterize : List (ℕ × ℚ) → Grid n) (store : MizStore n) :
    Except MizError (MizStore n × Bool × List String) :=
  match check_hemisphere hemisphere with
  | .error e => .error e
  | .ok _ =>
    match _nic_to_np_grid_body d input_folder hemisphere clobber read_nic rasterize store with
    | .ok (st, computed) => .ok (st, computed, if verbose then [run_log_nic d.ymd] else [])
    | .error e => .ok (store, false,
        (if verbose then [run_log_nic d.ymd] else []) ++
          (if verbose then [fail_log d.ymd e] else []))

/-- `Parallel(n_jobs=-1, backend='threading')(delayed(job)(dt, ...) for dt
in analyzed_dates)` of io.py lines 42-44 and 223-225: the per-date jobs
write disjoint cache files, so the threaded fan-out is modelled as the
sequential composition of the jobs in date order, threading the store and
collecting the prints; a job that raises propagates out of `Parallel`. -/
def parallel_dates {n : ℕ}
    (job : PyDate → MizStore n → Except MizError (MizStore n × Bool × List String)) :
    List PyDate → MizStore n → Except MizError (MizStore n × List String)
  | [], store => .ok (store, [])
  | d :: rest, store =>
    match job d store with
    | .error e => .error e
    | .ok r =>
      match parallel_dates job rest r.1 with
      | .error e => .error e
      | .ok rr => .ok (rr.1, r.2.2 ++ rr.2)

/-- io.py lines 28-44, `cdr_to_np`: check the hemisphere, then run
`_cdr_to_np_grid` over every date of the range. -/
def cdr_to_np {n : ℕ} (dates : List PyDate) (cdr_input_folder hemisphere : String)
    (clobber verbose : Bool) (nc_read : String → Except MizError (MGrid n))
    (store : MizStore n) : Except MizError (MizStore n × List String) := do
  check_hemisphere hemisphere
  parallel_dates
    (fun dt st => _cdr_to_np_grid dt cdr_input_folder hemisphere clobber verbose nc_read st)
    dates store

/-- io.py lines 208-225, `nic_to_np`: check the hemisphere, then run
`_nic_to_np_grid` over every date of the range. -/
def nic_to_np {n : ℕ} (dates : List PyDate) (nic_input_folder hemisphere : String)
    (clobber verbose : Bool) (read_nic : String → Except MizError (List GeoRow))
    (rasterize : List (ℕ × ℚ) → Grid n) (store : MizStore n) :
    Except MizError (MizStore n × List String) := do
  check_hemisphere hemisphere
  parallel_dates
    (fun dt st =>
      _nic_to_np_grid dt nic_input_folder hemisphere clobber verbose read_nic rasterize st)
    dates store

/-! Reference descriptions of the per-date steps (tied to the source
functions by the `cdr_grid_eq` / `nic_grid_eq` lemmas below). -/

/-- The cache file name `_cdr_to_np_grid` reads and writes. -/
def cdr_key (input_folder : String) (d : PyDate) (hemisphere : String) : String :=
  input_folder ++ "/" ++ (d.ymd ++ "_" ++ hemisphere ++ "_cdr.npy")

/-- The cache file name `_nic_to_np_grid` reads and writes. -/
def nic_key (input_folder : String) (d : PyDate) (hemisphere : String) : String :=
  input_folder ++ "/" ++ (d.ymd ++ "_" ++ hemisphere ++ "_nic.npy")

/-- The netCDF file name `_cdr_to_np_grid` reads. -/
def cdr_nc_fname (d : PyDate) (hemisphere : String) : String :=
  if d.before2019 then
    "seaice_conc_daily_" ++ hemisphere.take 1 ++ "h_f17_" ++ d.ymd ++ "_v03r01.nc"
  else
    "seaice_conc_daily_icdr_" ++ hemisphere.take 1 ++ "h_f18_" ++ d.ymd ++ "_v01r00.nc"

/-- The source path `_cdr_to_np_grid` reads. -/
def cdr_src (input_folder : String) (d : PyDate) (hemisphere : String) : String :=
  input_folder ++ "/" ++ cdr_nc_fname d hemisphere

/-- The zip archive name `_nic_to_np_grid` reads. -/
def nic_zip_fname (d : PyDate) (hemisphere : String) : String :=
  "nic_miz" ++ d.yj ++ hemisphere.take 1 ++ "c_pl_a.zip"

/-- The source path `_nic_to_np_grid` reads. -/
def nic_src (input_folder : String) (d : PyDate) (hemisphere : String) : String :=
  input_folder ++ "/" ++ nic_zip_fname d hemisphere

/-- Effect of one `_cdr_to_np_grid` job on the store (valid hemisphere). -/
def cdr_step_store {n : ℕ} (d : PyDate) (input_folder hemisphere : String) (clobber : Bool)
    (nc_read : String → Except MizError (MGrid n)) (s : MizStore n) : MizStore n :=
  if clobber ∨ (s (cdr_key input_folder d hemisphere)).isNone then
    match nc_read (cdr_src input_folder d hemisphere) with
    | .ok raw => store_update s (cdr_key input_folder d hemisphere) (clean_cdr_grid raw)
    | .error _ => s
  else s

/-- Whether one `_cdr_to_np_grid` job performed the conversion work. -/
def cdr_step_computed {n : ℕ} (d : PyDate) (input_folder hemisphere : String) (clobber : Bool)
    (nc_read : String → Except MizError (MGrid n)) (s : MizStore n) : Bool :=
  if clobber ∨ (s (cdr_key input_folder d hemisphere)).isNone then
    match nc_read (cdr_src input_folder d hemisphere) with
    | .ok _ => true
    | .error _ => false
  else false

/-- The prints of one `_cdr_to_np_grid` job. -/
def cdr_step_logs {n : ℕ} (d : PyDate) (input_folder hemisphere : String)
    (clobber verbose : Bool) (nc_read : String → Except MizError (MGrid n))
    (s : MizStore n) : List String :=
  (if verbose then [run_log_cdr d.ymd] else []) ++
    (if clobber ∨ (s (cdr_key input_folder d hemisphere)).isNone then
      match nc_read (cdr_src input_folder d hemisphere) with
      | .ok _ => []
      | .error e => if verbose then [fail_log d.ymd e] else []
    else [])

/-- Effect of one `_nic_to_np_grid` job on the store (valid hemisphere). -/
def nic_step_store {n : ℕ} (d : PyDate) (input_folder hemisphere : String) (clobber : Bool)
    (read_nic : String → Except MizError (List GeoRow))
    (rasterize : List (ℕ × ℚ) → Grid n) (s : MizStore n) : MizStore n :=
  if clobber ∨ (s (nic_key input_folder d hemisphere)).isNone then
    if splitext_ext (nic_src input_folder d hemisphere) = ".zip" then
      match read_nic (nic_src input_folder d hemisphere) with
      | .ok gdf =>
        match gdf.mapM (fun row =>
            (icecode_mapping row.ICECODE).map fun v => (row.geometry, v)) with
        | .ok shapes =>
          store_update s (nic_key input_folder d hemisphere) (rasterize shapes)
        | .error _ => s
      | .error _ => s
    else s
  else s

/-- Whether one `_nic_to_np_grid` job performed the conversion work. -/
def nic_step_computed {n : ℕ} (d : PyDate) (input_folder hemisphere : String) (clobber : Bool)
    (read_nic : String → Except MizError (List GeoRow)) (s : MizStore n) : Bool :=
  if clobber ∨ (s (nic_key input_folder d hemisphere)).isNone then
    if splitext_ext (nic_src input_folder d hemisphere) = ".zip" then
      match read_nic (nic_src input_folder d hemisphere) with
      | .ok gdf =>
        match gdf.mapM (fun row =>
            (icecode_mapping row.ICECODE).map fun v => (row.geometry, v)) with
        | .ok _ => true
        | .error _ => false
      | .error _ => false
    else false
  else false

/-- The caught error of one `_nic_to_np_grid` job body, if any. -/
def nic_step_err {n : ℕ} (d : PyDate) (input_folder hemisphere : String) (clobber : Bool)
    (read_nic : String → Except MizError (List GeoRow)) (s : MizStore n) : Option MizError :=
  if clobber ∨ (s (nic_key input_folder d hemisphere)).isNone then
    if splitext_ext (nic_src input_folder d hemisphere) = ".zip" then
      match read_nic (nic_src input_folder d hemisphere) with
      | .ok gdf =>
        match gdf.mapM (fun row =>
            (icecode_mapping row.ICECODE).map fun v => (row.geometry, v)) with
        | .ok _ => none
        | .error e => some e
      | .error e => some e
    else some .assertionFailed
  else none

/-- The prints of one `_nic_to_np_grid` job. -/
def nic_step_logs {n : ℕ} (d : PyDate) (input_folder hemisphere : String)
    (clobber verbose : Bool) (read_nic : String → Except MizError (List GeoRow))
    (s : MizStore n) : List String :=
  (if verbose then [run_log_nic d.ymd] else []) ++
    (match nic_step_err d input_folder hemisphere clobber read_nic s with
     | none => []
     | some e => if verbose then [fail_log d.ymd e] else [])

/-- Store after a list of per-date jobs with the given per-job store effect,
run in date order. -/
def fold_store {n : ℕ} (stepStore : PyDate → MizStore n → MizStore n) :
    List PyDate → MizStore n → MizStore n
  | [], s => s
  | d :: rest, s => fold_store stepStore rest (stepStore d s)

/-- Prints of a list of per-date jobs with the given per-job store effect
and prints, run in date order. -/
def fold_logs {n : ℕ} (stepStore : PyDate → MizStore n → MizStore n)
    (stepLogs : PyDate → MizStore n → List String) :
    List PyDate → MizStore n → List String
  | [], _ => []
  | d :: rest, s => stepLogs d s ++ fold_logs stepStore stepLogs rest (stepStore d s)

/-! ## Characterization of the `_median_grid` fold -/

lemma successes_cons_error {n : ℕ} (e : MizError) (l : List (Except MizError (Grid n))) :
    successes (.error e :: l) = successes l := rfl

lemma successes_cons_ok {n : ℕ} (g : Grid n) (l : List (Except MizError (Grid n))) :
    successes (.ok g :: l) = g :: successes l := rfl

lemma median_foldl_some {n : ℕ} (thresh : ℚ) :
    ∀ (l : List (Except MizError (Grid n))) (s : Fin n → ℕ) (c : ℕ),
      l.foldl (median_step thresh) (some s, c) =
        (some fun i => s i + (successes l).countP (fun g => threshold_mask g thresh i),
         c + (successes l).length) := by
  intro l
  induction l with
  | nil => intro s c; simp [successes]
  | cons r rest ih =>
    intro s c
    cases r with
    | error e =>
      simpa [median_step, successes_cons_error] using ih s c
    | ok g =>
      simp only [List.foldl_cons, median_step]
      rw [ih, successes_cons_ok]
      refine congrArg₂ Prod.mk (congrArg some (funext fun i => ?_)) ?_
      · rw [List.countP_cons]
        omega
      · simp only [List.length_cons]
        omega

lemma median_foldl_none_nil {n : ℕ} (thresh : ℚ) :
    ∀ (l : List (Except MizError (Grid n))), successes l = [] →
      l.foldl (median_step thresh) (none, 0) = (none, 0) := by
  intro l
  induction l with
  | nil => intro _; rfl
  | cons r rest ih =>
    intro h
    cases r with
    | error e => exact ih (by simpa [successes_cons_error] using h)
    | ok g => simp [successes_cons_ok] at h

lemma median_foldl_none_ne {n : ℕ} (thresh : ℚ) :
    ∀ (l : List (Except MizError (Grid n))), successes l ≠ [] →
      l.foldl (median_step thresh) (none, 0) =
        (some fun i => (successes l).countP (fun g => threshold_mask g thresh i),
         (successes l).length) := by
  intro l
  induction l with
  | nil => intro h; exact absurd rfl h
  | cons r rest ih =>
    intro h
    cases r with
    | error e =>
      rw [List.foldl_cons]
      have hstep : median_step thresh ((none : Option (Fin n → ℕ)), 0) (.error e) = (none, 0) := rfl
      rw [hstep, ih (by simpa [successes_cons_error] using h), successes_cons_error]
    | ok g =>
      simp only [List.foldl_cons, median_step]
      rw [median_foldl_some thresh rest, successes_cons_ok]
      refine congrArg₂ Prod.mk (congrArg some (funext fun i => ?_)) ?_
      · rw [List.countP_cons]
        omega
      · simp only [List.length_cons]
        omega

/-! ## Theorems for the aggregation claims (compare.py) -/

/-- C1: over any threshold and date range, `_median_grid` aggregates exactly
the `N` dates whose retrieval succeeded (raising dates are dropped from both
numerator and denominator), and a result cell is true iff the number of
successful dates whose cell value is ≥ the threshold, divided by `N`, is
≥ 0.5, ties counted as true. -/
theorem median_occurrence_correct {n : ℕ} (retrievals : List (Except MizError (Grid n)))
    (thresh : ℚ) (h : successes retrievals ≠ []) :
    _median_grid retrievals thresh =
      .ok fun i =>
        decide ((((successes retrievals).countP fun g => threshold_mask g thresh i : ℕ) : ℚ) /
          ((successes retrievals).length : ℚ) ≥ 1 / 2) := by
  unfold _median_grid
  rw [median_foldl_none_ne thresh retrievals h]
  rfl

/-- Witness for C1: three successes and one raising date; the cell is ≥ 0.5
on 2 of the 3 successful dates, so the tie-free majority vote is computed
over `N = 3`. -/
theorem median_occurrence_correct_witness :
    successes [.ok fun _ : Fin 1 => (1 : ℚ), .error .notFound,
               .ok fun _ : Fin 1 => (0 : ℚ), .ok fun _ : Fin 1 => (1 : ℚ)] ≠ [] ∧
    _median_grid [.ok fun _ : Fin 1 => (1 : ℚ), .error .notFound,
                  .ok fun _ : Fin 1 => (0 : ℚ), .ok fun _ : Fin 1 => (1 : ℚ)] (1 : ℚ) =
      .ok fun i =>
        decide ((((successes [.ok fun _ : Fin 1 => (1 : ℚ), .error .notFound,
                              .ok fun _ : Fin 1 => (0 : ℚ), .ok fun _ : Fin 1 => (1 : ℚ)]).countP
            fun g => threshold_mask g (1 : ℚ) i : ℕ) : ℚ) /
          ((successes [.ok fun _ : Fin 1 => (1 : ℚ), .error .notFound,
                       .ok fun _ : Fin 1 => (0 : ℚ), .ok fun _ : Fin 1 => (1 : ℚ)]).length : ℚ) ≥ 1 / 2) :=
  ⟨by decide, median_occurrence_correct _ 1 (by decide)⟩

/-- C6: when zero dates of the range succeeded, `_median_grid` raises (the
`None / 0` division, the spec's `EmptyRangeError`) instead of returning a
grid. -/
theorem median_empty_range {n : ℕ} (retrievals : List (Except MizError (Grid n)))
    (thresh : ℚ) (h : successes retrievals = []) :
    _median_grid retrievals thresh = .error .emptyRange := by
  unfold _median_grid
  rw [median_foldl_none_nil thresh retrievals h]

/-- Witness for C6: a two-date range where both retrievals raised. -/
theorem median_empty_range_witness :
    successes ([.error .notFound, .error .decodeError] : List (Except MizError (Grid 1))) = [] ∧
    _median_grid ([.error .notFound, .error .decodeError] : List (Except MizError (Grid 1))) (1 / 2) =
      .error .emptyRange :=
  ⟨rfl, median_empty_range _ (1 / 2) rfl⟩

/-- C3: under valid ranges, `calculate_ice_area` returns each product's
surviving cell count times the fixed 625 km² cell area, and a cell whose CDR
value is negative (the -1 no-observation sentinel) is counted for neither
product, whatever the NIC value there. -/
theorem ice_area_sentinel_exclusion {n : ℕ} (cdr_grid nic_grid : Grid n)
    (min_sic_nic max_sic_nic min_sic_cdr max_sic_cdr : ℚ)
    (h1 : min_sic_nic ≤ max_sic_nic) (h2 : min_sic_cdr ≤ max_sic_cdr) :
    calculate_ice_area cdr_grid nic_grid min_sic_nic max_sic_nic min_sic_cdr max_sic_cdr =
      .ok ((Finset.univ.filter fun i =>
              cdr_grid i ≥ min_sic_cdr ∧ cdr_grid i ≤ max_sic_cdr ∧ cdr_grid i ≥ 0).card * 625,
           (Finset.univ.filter fun i =>
              nic_grid i ≥ min_sic_nic ∧ nic_grid i ≤ max_sic_nic ∧ cdr_grid i ≥ 0).card * 625) ∧
    ∀ i, cdr_grid i < 0 →
      i ∉ (Finset.univ.filter fun i =>
             cdr_grid i ≥ min_sic_cdr ∧ cdr_grid i ≤ max_sic_cdr ∧ cdr_grid i ≥ 0) ∧
      i ∉ (Finset.univ.filter fun i =>
             nic_grid i ≥ min_sic_nic ∧ nic_grid i ≤ max_sic_nic ∧ cdr_grid i ≥ 0) := by
  constructor
  · unfold calculate_ice_area
    rw [if_neg (not_not_intro h1), if_neg (not_not_intro h2)]
    rfl
  · intro i hi
    constructor <;>
      · simp only [Finset.mem_filter, Finset.mem_univ, true_and]
        rintro ⟨-, -, h0⟩
        exact absurd h0 (not_le.mpr hi)

/-- Witness for C3: a one-cell grid pair where the CDR value is the -1
sentinel and the NIC value is inside its range; the cell is counted for
neither product. -/
theorem ice_area_sentinel_exclusion_witness :
    calculate_ice_area (fun _ : Fin 1 => (-1 : ℚ)) (fun _ => 1) 0 1 0 1 =
      .ok ((Finset.univ.filter fun i =>
              (fun _ : Fin 1 => (-1 : ℚ)) i ≥ 0 ∧ (fun _ : Fin 1 => (-1 : ℚ)) i ≤ 1 ∧
                (fun _ : Fin 1 => (-1 : ℚ)) i ≥ 0).card * 625,
           (Finset.univ.filter fun i =>
              (fun _ : Fin 1 => (1 : ℚ)) i ≥ 0 ∧ (fun _ : Fin 1 => (1 : ℚ)) i ≤ 1 ∧
                (fun _ : Fin 1 => (-1 : ℚ)) i ≥ 0).card * 625) ∧
    (0 : Fin 1) ∉ (Finset.univ.filter fun i =>
        (fun _ : Fin 1 => (-1 : ℚ)) i ≥ 0 ∧ (fun _ : Fin 1 => (-1 : ℚ)) i ≤ 1 ∧
          (fun _ : Fin 1 => (-1 : ℚ)) i ≥ 0) ∧
    (0 : Fin 1) ∉ (Finset.univ.filter fun i =>
        (fun _ : Fin 1 => (1 : ℚ)) i ≥ 0 ∧ (fun _ : Fin 1 => (1 : ℚ)) i ≤ 1 ∧
          (fun _ : Fin 1 => (-1 : ℚ)) i ≥ 0) :=
  ⟨(ice_area_sentinel_exclusion (fun _ : Fin 1 => (-1 : ℚ)) (fun _ => 1) 0 1 0 1
      (by decide) (by decide)).1,
   ((ice_area_sentinel_exclusion (fun _ : Fin 1 => (-1 : ℚ)) (fun _ => 1) 0 1 0 1
      (by decide) (by decide)).2 0 (by decide)).1,
   ((ice_area_sentinel_exclusion (fun _ : Fin 1 => (-1 : ℚ)) (fun _ => 1) 0 1 0 1
      (by decide) (by decide)).2 0 (by decide)).2⟩

/-- C4: every cell of `calculate_ice_footprint_diff` holds exactly one of
the four category values {1, 2, 3, 4}, and the four per-category cell counts
sum to the total cell count. -/
theorem footprint_partition {n : ℕ} (nic_grid : Grid n) (min_nic max_nic : ℚ)
    (cdr_grid : Grid n) (min_cdr max_cdr : ℚ) :
    (∀ i, calculate_ice_footprint_diff nic_grid min_nic max_nic cdr_grid min_cdr max_cdr i = 1 ∨
          calculate_ice_footprint_diff nic_grid min_nic max_nic cdr_grid min_cdr max_cdr i = 2 ∨
          calculate_ice_footprint_diff nic_grid min_nic max_nic cdr_grid min_cdr max_cdr i = 3 ∨
          calculate_ice_footprint_diff nic_grid min_nic max_nic cdr_grid min_cdr max_cdr i = 4) ∧
    (Finset.univ.filter fun i =>
        calculate_ice_footprint_diff nic_grid min_nic max_nic cdr_grid min_cdr max_cdr i = 1).card +
    (Finset.univ.filter fun i =>
        calculate_ice_footprint_diff nic_grid min_nic max_nic cdr_grid min_cdr max_cdr i = 2).card +
    (Finset.univ.filter fun i =>
        calculate_ice_footprint_diff nic_grid min_nic max_nic cdr_grid min_cdr max_cdr i = 3).card +
    (Finset.univ.filter fun i =>
        calculate_ice_footprint_diff nic_grid min_nic max_nic cdr_grid min_cdr max_cdr i = 4).card
      = n := by
  have hcases : ∀ i,
      calculate_ice_footprint_diff nic_grid min_nic max_nic cdr_grid min_cdr max_cdr i = 1 ∨
      calculate_ice_footprint_diff nic_grid min_nic max_nic cdr_grid min_cdr max_cdr i = 2 ∨
      calculate_ice_footprint_diff nic_grid min_nic max_nic cdr_grid min_cdr max_cdr i = 3 ∨
      calculate_ice_footprint_diff nic_grid min_nic max_nic cdr_grid min_cdr max_cdr i = 4 := by
    intro i
    unfold calculate_ice_footprint_diff
    rcases h1 : decide (nic_grid i ≥ min_nic ∧ nic_grid i ≤ max_nic) with _ | _ <;>
      rcases h2 : decide (cdr_grid i ≥ min_cdr ∧ cdr_grid i ≤ max_cdr) with _ | _ <;>
        simp [h1, h2]
  have hone : ∀ i : Fin n,
      (if calculate_ice_footprint_diff nic_grid min_nic max_nic cdr_grid min_cdr max_cdr i = 1
        then 1 else 0) +
      (if calculate_ice_footprint_diff nic_grid min_nic max_nic cdr_grid min_cdr max_cdr i = 2
        then 1 else 0) +
      (if calculate_ice_footprint_diff nic_grid min_nic max_nic cdr_grid min_cdr max_cdr i = 3
        then 1 else 0) +
      (if calculate_ice_footprint_diff nic_grid min_nic max_nic cdr_grid min_cdr max_cdr i = 4
        then 1 else 0) = 1 := by
    intro i
    rcases hcases i with h | h | h | h <;> rw [h] <;> norm_num
  refine ⟨hcases, ?_⟩
  rw [Finset.card_filter, Finset.card_filter, Finset.card_filter, Finset.card_filter,
    ← Finset.sum_add_distrib, ← Finset.sum_add_distrib, ← Finset.sum_add_distrib]
  rw [Finset.sum_congr rfl fun i _ => hone i]
  simp

/-- C7: `calculate_ice_area` raises the range-precondition assertion (and
returns no result) whenever either concentration range is inverted, and
raises no precondition error when both ranges are ordered. -/
theorem ice_area_range_precondition {n : ℕ} (cdr_grid nic_grid : Grid n)
    (min_sic_nic max_sic_nic min_sic_cdr max_sic_cdr : ℚ) :
    (¬ (min_sic_nic ≤ max_sic_nic) ∨ ¬ (min_sic_cdr ≤ max_sic_cdr) →
      calculate_ice_area cdr_grid nic_grid min_sic_nic max_sic_nic min_sic_cdr max_sic_cdr =
        .error .assertionFailed) ∧
    (min_sic_nic ≤ max_sic_nic → min_sic_cdr ≤ max_sic_cdr →
      ∃ areas, calculate_ice_area cdr_grid nic_grid min_sic_nic max_sic_nic min_sic_cdr
        max_sic_cdr = .ok areas) := by
  constructor
  · intro h
    rcases h with h | h
    · unfold calculate_ice_area
      rw [if_pos h]
    · unfold calculate_ice_area
      by_cases h' : min_sic_nic ≤ max_sic_nic
      · rw [if_neg (not_not_intro h'), if_pos h]
      · rw [if_pos h']
  · intro ha hb
    refine ⟨((Finset.univ.filter fun i =>
        cdr_grid i ≥ min_sic_cdr ∧ cdr_grid i ≤ max_sic_cdr ∧ cdr_grid i ≥ 0).card *
          GRID_CELL_AREA,
      (Finset.univ.filter fun i =>
        nic_grid i ≥ min_sic_nic ∧ nic_grid i ≤ max_sic_nic ∧ cdr_grid i ≥ 0).card *
          GRID_CELL_AREA), ?_⟩
    unfold calculate_ice_area
    rw [if_neg (not_not_intro ha), if_neg (not_not_intro hb)]

/-- Witness for C7: an inverted NIC range raises the assertion; ordered
ranges succeed. -/
theorem ice_area_range_precondition_witness :
    calculate_ice_area (fun _ : Fin 1 => (0 : ℚ)) (fun _ => 0) 1 0 0 1 =
      .error .assertionFailed ∧
    ∃ areas, calculate_ice_area (fun _ : Fin 1 => (0 : ℚ)) (fun _ => 0) 0 1 0 1 = .ok areas :=
  ⟨(ice_area_range_precondition (fun _ : Fin 1 => (0 : ℚ)) (fun _ => 0) 1 0 0 1).1
      (Or.inl (by decide)),
   (ice_area_range_precondition (fun _ : Fin 1 => (0 : ℚ)) (fun _ => 0) 0 1 0 1).2
      (by decide) (by decide)⟩

/-- Counterexample for C8: the source computes the mask as a bare
`grid >= thresh` with no sentinel guard, so at threshold -1 a cell holding
the -1 no-observation sentinel IS asserted true, refuting "a cell whose
value equals the sentinel is never asserted true" for every threshold. -/
theorem threshold_mask_sentinel_cex :
    threshold_mask (fun _ : Fin 1 => (-1 : ℚ)) (-1) 0 = true := by decide

/-- C8 as amended: the mask is the cellwise comparison `grid >= thresh`,
and provided the threshold is strictly greater than the -1 sentinel (true of
every concentration-fraction threshold), a sentinel cell is never asserted
true. -/
theorem threshold_mask_spec {n : ℕ} (grid : Grid n) (thresh : ℚ) :
    (∀ i, threshold_mask grid thresh i = decide (grid i ≥ thresh)) ∧
    (-1 < thresh → ∀ i, grid i = -1 → threshold_mask grid thresh i = false) := by
  refine ⟨fun i => rfl, fun ht i hi => ?_⟩
  simp only [threshold_mask, hi, decide_eq_false_iff_not, ge_iff_le, not_le]
  exact ht

/-- Witness for the amended C8: with threshold 0, a sentinel cell is not
asserted true. -/
theorem threshold_mask_spec_witness :
    threshold_mask (fun _ : Fin 1 => (-1 : ℚ)) 0 0 = false ∧ (-1 : ℚ) < 0 :=
  ⟨(threshold_mask_spec (fun _ : Fin 1 => (-1 : ℚ)) 0).2 (by decide) 0 rfl, by decide⟩

/-! ## Characterization of the per-date conversion jobs -/

lemma exc_bind_ok {α β : Type} (a : α) (f : α → Except MizError β) :
    (Except.ok a : Except MizError α) >>= f = f a := rfl

lemma exc_bind_err {α β : Type} (e : MizError) (f : α → Except MizError β) :
    (Except.error e : Except MizError α) >>= f = Except.error e := rfl

lemma check_hemisphere_ok (hem : String) (hhem : hem = "north" ∨ hem = "south") :
    check_hemisphere hem = .ok () := by
  rcases hhem with h | h <;> subst h <;> rfl

lemma cdr_fname_grid_eq (d : PyDate) (hem : String) (hhem : hem = "north" ∨ hem = "south") :
    datetime_to_cdr_fname_grid d hem = .ok (d.ymd ++ "_" ++ hem ++ "_cdr.npy") := by
  unfold datetime_to_cdr_fname_grid
  rw [check_hemisphere_ok hem hhem]
  rfl

lemma nic_fname_grid_eq (d : PyDate) (hem : String) (hhem : hem = "north" ∨ hem = "south") :
    datetime_to_nic_fname_grid d hem = .ok (d.ymd ++ "_" ++ hem ++ "_nic.npy") := by
  unfold datetime_to_nic_fname_grid
  rw [check_hemisphere_ok hem hhem]
  rfl

lemma cdr_fname_eq (d : PyDate) (hem : String) (hhem : hem = "north" ∨ hem = "south") :
    ∃ dir : String, datetime_to_cdr_fname d hem = .ok (dir, cdr_nc_fname d hem) := by
  unfold datetime_to_cdr_fname cdr_nc_fname
  rw [check_hemisphere_ok hem hhem]
  cases hb : d.before2019 <;> exact ⟨_, rfl⟩

lemma nic_fname_eq (d : PyDate) (hem : String) (hhem : hem = "north" ∨ hem = "south") :
    datetime_to_nic_fname d hem =
      .ok ("ftp://sidads.colorado.edu/DATASETS/NOAA/G10017/" ++ hem ++ "/" ++ d.y ++ "/",
           nic_zip_fname d hem) := by
  unfold datetime_to_nic_fname nic_zip_fname
  rw [check_hemisphere_ok hem hhem]
  rfl

lemma cdr_grid_eq {n : ℕ} (d : PyDate) (folder hem : String) (clobber verbose : Bool)
    (nc_read : String → Except MizError (MGrid n)) (s : MizStore n)
    (hhem : hem = "north" ∨ hem = "south") :
    _cdr_to_np_grid d folder hem clobber verbose nc_read s =
      .ok (cdr_step_store d folder hem clobber nc_read s,
           cdr_step_computed d folder hem clobber nc_read s,
           cdr_step_logs d folder hem clobber verbose nc_read s) := by
  obtain ⟨dir, hdir⟩ := cdr_fname_eq d hem hhem
  by_cases hc : clobber = true ∨
      (s (folder ++ "/" ++ (d.ymd ++ "_" ++ hem ++ "_cdr.npy"))).isNone = true
  · cases hr : nc_read (folder ++ "/" ++ cdr_nc_fname d hem) <;>
      simp only [_cdr_to_np_grid, _cdr_to_np_grid_body, cdr_step_store, cdr_step_computed,
        cdr_step_logs, cdr_key, cdr_src, check_hemisphere_ok hem hhem,
        cdr_fname_grid_eq d hem hhem, hdir, exc_bind_ok, exc_bind_err, hc, if_true, hr] <;>
      try simp
  · simp only [_cdr_to_np_grid, _cdr_to_np_grid_body, cdr_step_store, cdr_step_computed,
      cdr_step_logs, cdr_key, cdr_src, check_hemisphere_ok hem hhem,
      cdr_fname_grid_eq d hem hhem, hdir, exc_bind_ok, exc_bind_err, hc, if_false]
    try simp

lemma nic_grid_eq {n : ℕ} (d : PyDate) (folder hem : String) (clobber verbose : Bool)
    (read_nic : String → Except MizError (List GeoRow))
    (rasterize : List (ℕ × ℚ) → Grid n) (s : MizStore n)
    (hhem : hem = "north" ∨ hem = "south") :
    _nic_to_np_grid d folder hem clobber verbose read_nic rasterize s =
      .ok (nic_step_store d folder hem clobber read_nic rasterize s,
           nic_step_computed d folder hem clobber read_nic s,
           nic_step_logs d folder hem clobber verbose read_nic s) := by
  by_cases hc : clobber = true ∨
      (s (folder ++ "/" ++ (d.ymd ++ "_" ++ hem ++ "_nic.npy"))).isNone = true
  · by_cases hz : splitext_ext (folder ++ "/" ++ nic_zip_fname d hem) = ".zip"
    · cases hr : read_nic (folder ++ "/" ++ nic_zip_fname d hem) with
      | error e =>
        simp only [_nic_to_np_grid, _nic_to_np_grid_body, nic_step_store, nic_step_computed,
          nic_step_logs, nic_step_err, nic_key, nic_src, check_hemisphere_ok hem hhem,
          nic_fname_grid_eq d hem hhem, nic_fname_eq d hem hhem, exc_bind_ok, exc_bind_err,
          hc, if_true, hz, hr]
        try simp
      | ok gdf =>
        cases hm : gdf.mapM (fun row =>
            (icecode_mapping row.ICECODE).map fun v => (row.geometry, v)) <;>
          simp only [_nic_to_np_grid, _nic_to_np_grid_body, nic_step_store, nic_step_computed,
            nic_step_logs, nic_step_err, nic_key, nic_src, check_hemisphere_ok hem hhem,
            nic_fname_grid_eq d hem hhem, nic_fname_eq d hem hhem, exc_bind_ok,
            exc_bind_err, hc, if_true, hz, hr, hm] <;>
          try simp
    · simp only [_nic_to_np_grid, _nic_to_np_grid_body, nic_step_store, nic_step_computed,
        nic_step_logs, nic_step_err, nic_key, nic_src, check_hemisphere_ok hem hhem,
        nic_fname_grid_eq d hem hhem, nic_fname_eq d hem hhem, exc_bind_ok, exc_bind_err,
        hc, if_true, hz, if_false]
      try simp [hz]
  · simp only [_nic_to_np_grid, _nic_to_np_grid_body, nic_step_store, nic_step_computed,
      nic_step_logs, nic_step_err, nic_key, nic_src, check_hemisphere_ok hem hhem,
      nic_fname_grid_eq d hem hhem, nic_fname_eq d hem hhem, exc_bind_ok, exc_bind_err,
      hc, if_false]
    try simp

lemma parallel_dates_eq {n : ℕ}
    (job : PyDate → MizStore n → Except MizError (MizStore n × Bool × List String))
    (stepStore : PyDate → MizStore n → MizStore n)
    (stepComputed : PyDate → MizStore n → Bool)
    (stepLogs : PyDate → MizStore n → List String)
    (hjob : ∀ d s, job d s = .ok (stepStore d s, stepComputed d s, stepLogs d s)) :
    ∀ (dates : List PyDate) (s : MizStore n),
      parallel_dates job dates s =
        .ok (fold_store stepStore dates s, fold_logs stepStore stepLogs dates s) := by
  intro dates
  induction dates with
  | nil => intro s; rfl
  | cons d rest ih =>
    intro s
    simp only [parallel_dates, hjob d s, ih (stepStore d s), fold_store, fold_logs]

lemma fold_store_frame {n : ℕ} (stepStore : PyDate → MizStore n → MizStore n)
    (key : PyDate → String)
    (hframe : ∀ d s k, k ≠ key d → stepStore d s k = s k) :
    ∀ (dates : List PyDate) (s : MizStore n) (k : String),
      (∀ d ∈ dates, k ≠ key d) → fold_store stepStore dates s k = s k := by
  intro dates
  induction dates with
  | nil => intro s k _; rfl
  | cons d rest ih =>
    intro s k hk
    simp only [fold_store]
    rw [ih (stepStore d s) k (fun e he => hk e (List.mem_cons_of_mem d he)),
        hframe d s k (hk d (List.mem_cons_self d rest))]

lemma fold_store_at_key {n : ℕ} (stepStore : PyDate → MizStore n → MizStore n)
    (key : PyDate → String)
    (hframe : ∀ d s k, k ≠ key d → stepStore d s k = s k)
    (hloc : ∀ d (s1 s2 : MizStore n), s1 (key d) = s2 (key d) →
      stepStore d s1 (key d) = stepStore d s2 (key d)) :
    ∀ (dates : List PyDate) (s : MizStore n),
      dates.Pairwise (fun a b => key a ≠ key b) →
      ∀ d ∈ dates, fold_store stepStore dates s (key d) = stepStore d s (key d) := by
  intro dates
  induction dates with
  | nil => intro s _ d hd; cases hd
  | cons d0 rest ih =>
    intro s hp d hd
    simp only [fold_store]
    rcases List.mem_cons.mp hd with rfl | hd'
    · exact fold_store_frame stepStore key hframe rest (stepStore d s) (key d)
        (fun e he => (List.pairwise_cons.mp hp).1 e he)
    · have hne : key d0 ≠ key d := (List.pairwise_cons.mp hp).1 d hd'
      have hagree : (stepStore d0 s) (key d) = s (key d) := hframe d0 s (key d) (Ne.symm hne)
      rw [ih (stepStore d0 s) (List.pairwise_cons.mp hp).2 d hd',
          hloc d (stepStore d0 s) s hagree]

lemma fold_logs_mem {n : ℕ} (stepStore : PyDate → MizStore n → MizStore n)
    (stepLogs : PyDate → MizStore n → List String) (key : PyDate → String)
    (hframe : ∀ d s k, k ≠ key d → stepStore d s k = s k) :
    ∀ (dates : List PyDate) (s : MizStore n) (d : PyDate), d ∈ dates →
      dates.Pairwise (fun a b => key a ≠ key b) →
      ∀ msg, (∀ s' : MizStore n, s' (key d) = s (key d) → msg ∈ stepLogs d s') →
        msg ∈ fold_logs stepStore stepLogs dates s := by
  intro dates
  induction dates with
  | nil => intro s d hd; cases hd
  | cons d0 rest ih =>
    intro s d hd hp msg hmsg
    simp only [fold_logs, List.mem_append]
    rcases List.mem_cons.mp hd with rfl | hd'
    · exact Or.inl (hmsg s rfl)
    · refine Or.inr (ih (stepStore d0 s) d hd' (List.pairwise_cons.mp hp).2 msg ?_)
      intro s' hs'
      apply hmsg
      rw [hs', hframe d0 s (key d) (Ne.symm ((List.pairwise_cons.mp hp).1 d hd'))]

lemma cdr_step_frame {n : ℕ} (d : PyDate) (folder hem : String) (clobber : Bool)
    (nc_read : String → Except MizError (MGrid n)) :
    ∀ (s : MizStore n) (k : String), k ≠ cdr_key folder d hem →
      cdr_step_store d folder hem clobber nc_read s k = s k := by
  intro s k hk
  unfold cdr_step_store
  by_cases hc : clobber = true ∨ (s (cdr_key folder d hem)).isNone = true
  · rw [if_pos hc]
    cases hr : nc_read (cdr_src folder d hem)
    · rfl
    · simp [store_update, hk]
  · rw [if_neg hc]

lemma cdr_step_local {n : ℕ} (d : PyDate) (folder hem : String) (clobber : Bool)
    (nc_read : String → Except MizError (MGrid n)) :
    ∀ s1 s2 : MizStore n, s1 (cdr_key folder d hem) = s2 (cdr_key folder d hem) →
      cdr_step_store d folder hem clobber nc_read s1 (cdr_key folder d hem) =
        cdr_step_store d folder hem clobber nc_read s2 (cdr_key folder d hem) := by
  intro s1 s2 h
  unfold cdr_step_store
  rw [h]
  by_cases hc : clobber = true ∨ (s2 (cdr_key folder d hem)).isNone = true
  · rw [if_pos hc, if_pos hc]
    cases hr : nc_read (cdr_src folder d hem)
    · exact h
    · simp [store_update]
  · rw [if_neg hc, if_neg hc]
    exact h

lemma nic_step_frame {n : ℕ} (d : PyDate) (folder hem : String) (clobber : Bool)
    (read_nic : String → Except MizError (List GeoRow))
    (rasterize : List (ℕ × ℚ) → Grid n) :
    ∀ (s : MizStore n) (k : String), k ≠ nic_key folder d hem →
      nic_step_store d folder hem clobber read_nic rasterize s k = s k := by
  intro s k hk
  unfold nic_step_store
  by_cases hc : clobber = true ∨ (s (nic_key folder d hem)).isNone = true
  · rw [if_pos hc]
    by_cases hz : splitext_ext (nic_src folder d hem) = ".zip"
    · rw [if_pos hz]
      cases hr : read_nic (nic_src folder d hem) with
      | error e => rfl
      | ok gdf =>
        cases hm : List.mapM.loop (fun row =>
            (icecode_mapping row.ICECODE).map fun v => (row.geometry, v)) gdf [] <;>
          simp [hm, store_update, hk]
    · rw [if_neg hz]
  · rw [if_neg hc]

lemma nic_step_local {n : ℕ} (d : PyDate) (folder hem : String) (clobber : Bool)
    (read_nic : String → Except MizError (List GeoRow))
    (rasterize : List (ℕ × ℚ) → Grid n) :
    ∀ s1 s2 : MizStore n, s1 (nic_key folder d hem) = s2 (nic_key folder d hem) →
      nic_step_store d folder hem clobber read_nic rasterize s1 (nic_key folder d hem) =
        nic_step_store d folder hem clobber read_nic rasterize s2 (nic_key folder d hem) := by
  intro s1 s2 h
  unfold nic_step_store
  rw [h]
  by_cases hc : clobber = true ∨ (s2 (nic_key folder d hem)).isNone = true
  · rw [if_pos hc, if_pos hc]
    by_cases hz : splitext_ext (nic_src folder d hem) = ".zip"
    · rw [if_pos hz, if_pos hz]
      cases hr : read_nic (nic_src folder d hem) with
      | error e => exact h
      | ok gdf =>
        cases hm : List.mapM.loop (fun row =>
            (icecode_mapping row.ICECODE).map fun v => (row.geometry, v)) gdf [] <;>
          simp [hm, store_update, h]
    · rw [if_neg hz, if_neg hz]
      exact h
  · rw [if_neg hc, if_neg hc]
    exact h

lemma cdr_key_inj (folder hem : String) (d1 d2 : PyDate)
    (h : cdr_key folder d1 hem = cdr_key folder d2 hem) : d1.ymd = d2.ymd := by
  unfold cdr_key at h
  have h' := congrArg String.data h
  simp only [String.data_append, List.append_assoc] at h'
  have h2 := List.append_cancel_left h'
  have h3 := List.append_cancel_left h2
  simp only [← List.append_assoc] at h3
  have h4 := List.append_cancel_right h3
  have h5 := List.append_cancel_right h4
  have h6 := List.append_cancel_right h5
  exact String.ext h6

lemma nic_key_inj (folder hem : String) (d1 d2 : PyDate)
    (h : nic_key folder d1 hem = nic_key folder d2 hem) : d1.ymd = d2.ymd := by
  unfold nic_key at h
  have h' := congrArg String.data h
  simp only [String.data_append, List.append_assoc] at h'
  have h2 := List.append_cancel_left h'
  have h3 := List.append_cancel_left h2
  simp only [← List.append_assoc] at h3
  have h4 := List.append_cancel_right h3
  have h5 := List.append_cancel_right h4
  have h6 := List.append_cancel_right h5
  exact String.ext h6

lemma takeWhile_append_of_stop {α : Type} (p : α → Bool) :
    ∀ (l1 l2 : List α), (∃ a ∈ l1, p a = false) →
      (l1 ++ l2).takeWhile p = l1.takeWhile p := by
  intro l1
  induction l1 with
  | nil =>
    intro l2 h
    rcases h with ⟨a, ha, _⟩
    cases ha
  | cons b t ih =>
    intro l2 h
    rcases h with ⟨a, ha, hpa⟩
    rcases List.mem_cons.mp ha with rfl | hat
    · simp [List.takeWhile_cons, hpa]
    · cases hpb : p b
      · simp [List.takeWhile_cons, hpb]
      · simp [List.takeWhile_cons, hpb, ih l2 ⟨a, hat, hpa⟩]

lemma splitext_ext_ends_zip (x : String) : splitext_ext (x ++ "c_pl_a.zip") = ".zip" := by
  unfold splitext_ext
  rw [String.data_append]
  have hmem : '.' ∈ x.data ++ "c_pl_a.zip".data := List.mem_append.mpr (Or.inr (by decide))
  rw [if_pos hmem, List.reverse_append]
  have ht : (("c_pl_a.zip".data.reverse ++ x.data.reverse).takeWhile fun c => ¬ (c = '.'))
      = "c_pl_a.zip".data.reverse.takeWhile fun c => ¬ (c = '.') :=
    takeWhile_append_of_stop _ _ _ ⟨'.', by decide, by decide⟩
  rw [ht]
  decide

/-- The zip name `_nic_to_np_grid` derives always carries the `.zip`
extension, so the `os.path.splitext` assert of io.py line 280 passes for
every date, hemisphere and folder. -/
lemma splitext_ext_nic_src (folder : String) (d : PyDate) (hem : String) :
    splitext_ext (nic_src folder d hem) = ".zip" := by
  have hassoc : nic_src folder d hem
      = ((folder ++ "/") ++ (("nic_miz" ++ d.yj) ++ hem.take 1)) ++ "c_pl_a.zip" := by
    unfold nic_src nic_zip_fname
    apply String.ext
    simp [String.data_append, List.append_assoc]
  rw [hassoc, splitext_ext_ends_zip]

/-- C9: the gridded (CDR) rasterization replaces every masked cell and every
negative flag value with 0 and leaves every other cell at its source value,
so when `_cdr_to_np_grid` converts an uncached date it stores exactly this
cleaned grid, all of whose cells are plain values ≥ 0. -/
theorem cdr_cleaning {n : ℕ} (raw : MGrid n) (d : PyDate) (folder hem : String)
    (verbose : Bool) (nc_read : String → Except MizError (MGrid n)) (s : MizStore n) :
    (∀ i, 0 ≤ clean_cdr_grid raw i) ∧
    (∀ i, raw i = none → clean_cdr_grid raw i = 0) ∧
    (∀ i v, raw i = some v → v < 0 → clean_cdr_grid raw i = 0) ∧
    (∀ i v, raw i = some v → 0 ≤ v → clean_cdr_grid raw i = v) ∧
    (hem = "north" ∨ hem = "south" → (s (cdr_key folder d hem)).isNone = true →
      nc_read (cdr_src folder d hem) = .ok raw →
      _cdr_to_np_grid d folder hem false verbose nc_read s =
        .ok (store_update s (cdr_key folder d hem) (clean_cdr_grid raw), true,
             if verbose then [run_log_cdr d.ymd] else [])) := by
  refine ⟨?_, ?_, ?_, ?_, ?_⟩
  · intro i
    simp only [clean_cdr_grid]
    split
    · exact le_refl 0
    · exact le_of_not_lt (by assumption)
  · intro i hi
    simp [clean_cdr_grid, hi]
  · intro i v hi hv
    simp [clean_cdr_grid, hi, hv]
  · intro i v hi hv
    simp [clean_cdr_grid, hi, not_lt.mpr hv]
  · intro hhem hnone hread
    rw [cdr_grid_eq d folder hem false verbose nc_read s hhem]
    simp [cdr_step_store, cdr_step_computed, cdr_step_logs, hnone, hread]

/-- Witness for C9: a one-cell masked array holding the -2 flag is stored as
0; a plain 1/2 cell is kept; the conversion of an uncached date stores the
cleaned grid. -/
theorem cdr_cleaning_witness :
    clean_cdr_grid (fun _ : Fin 1 => some (-2 : ℚ)) 0 = 0 ∧
    clean_cdr_grid (fun _ : Fin 1 => (none : Option ℚ)) 0 = 0 ∧
    _cdr_to_np_grid ⟨"2020", "20200101", "2020001", false⟩ "in" "north" false false
        (fun _ => .ok fun _ : Fin 1 => some (-2 : ℚ)) (fun _ => none) =
      .ok (store_update (fun _ => none)
             (cdr_key "in" ⟨"2020", "20200101", "2020001", false⟩ "north")
             (clean_cdr_grid fun _ : Fin 1 => some (-2 : ℚ)), true, []) :=
  ⟨((cdr_cleaning (fun _ : Fin 1 => some (-2 : ℚ)) ⟨"2020", "20200101", "2020001", false⟩
      "in" "north" false (fun _ => .ok fun _ => some (-2 : ℚ)) (fun _ => none)).2.2.1
      0 (-2) rfl (by decide)),
   ((cdr_cleaning (fun _ : Fin 1 => (none : Option ℚ)) ⟨"2020", "20200101", "2020001", false⟩
      "in" "north" false (fun _ => .ok fun _ => none) (fun _ => none)).2.1 0 rfl),
   ((cdr_cleaning (fun _ : Fin 1 => some (-2 : ℚ)) ⟨"2020", "20200101", "2020001", false⟩
      "in" "north" false (fun _ => .ok fun _ => some (-2 : ℚ)) (fun _ => none)).2.2.2.2
      (Or.inl rfl) rfl rfl)⟩

/-- C10: every modelled io.py operation taking a hemisphere argument fails
with the `AssertionError` of `check_hemisphere` — before any file-system or
computation work, hence the bare `.error` with no effects and no store — as
soon as the hemisphere string is not exactly "north" or "south", and for
"north"/"south" the check passes. -/
theorem hemisphere_validation {n : ℕ} (hem : String) (d : PyDate) (dates : List PyDate)
    (dirname local_dir folder : String) (np_load : MizStore n) (fs_exists : String → Bool)
    (no_clobber clobber verbose : Bool)
    (formatter : PyDate → String → Except MizError (String × String))
    (nc_read : String → Except MizError (MGrid n))
    (read_nic : String → Except MizError (List GeoRow))
    (rasterize : List (ℕ × ℚ) → Grid n) (store : MizStore n) :
    (¬ (hem = "north" ∨ hem = "south") →
      check_hemisphere hem = .error .assertionFailed ∧
      datetime_to_cdr_fname d hem = .error .assertionFailed ∧
      datetime_to_nic_fname d hem = .error .assertionFailed ∧
      datetime_to_cdr_fname_grid d hem = .error .assertionFailed ∧
      datetime_to_nic_fname_grid d hem = .error .assertionFailed ∧
      download_range formatter dates local_dir hem fs_exists no_clobber =
        .error .assertionFailed ∧
      get_nic np_load d dirname hem = .error .assertionFailed ∧
      get_cdr np_load d dirname hem = .error .assertionFailed ∧
      cdr_to_np dates folder hem clobber verbose nc_read store = .error .assertionFailed ∧
      nic_to_np dates folder hem clobber verbose read_nic rasterize store =
        .error .assertionFailed) ∧
    ((hem = "north" ∨ hem = "south") → check_hemisphere hem = .ok ()) := by
  constructor
  · intro h
    have e : check_hemisphere hem = .error .assertionFailed := by
      unfold check_hemisphere
      rw [if_neg h]
    refine ⟨e, ?_, ?_, ?_, ?_, ?_, ?_, ?_, ?_, ?_⟩
    · unfold datetime_to_cdr_fname
      rw [e]
      rfl
    · unfold datetime_to_nic_fname
      rw [e]
      rfl
    · unfold datetime_to_cdr_fname_grid
      rw [e]
      rfl
    · unfold datetime_to_nic_fname_grid
      rw [e]
      rfl
    · unfold download_range
      rw [e]
      rfl
    · unfold get_nic
      rw [e]
      rfl
    · unfold get_cdr
      rw [e]
      rfl
    · unfold cdr_to_np
      rw [e]
      rfl
    · unfold nic_to_np
      rw [e]
      rfl
  · exact check_hemisphere_ok hem

/-- Witness for C10: the hemisphere string "east" is rejected by the check,
the loaders and the range conversions before any work; "north" and "south"
pass the check. -/
theorem hemisphere_validation_witness :
    check_hemisphere "east" = .error .assertionFailed ∧
    get_nic (fun _ => (none : Option (Grid 1))) ⟨"2020", "20200101", "2020001", false⟩
      "dir" "east" = .error .assertionFailed ∧
    download_range (fun _ _ => .ok ("", "")) [] "dl" "east" (fun _ => false) true =
      .error .assertionFailed ∧
    cdr_to_np [] "in" "east" false false (fun _ => .error .notFound)
      (fun _ => (none : Option (Grid 1))) = .error .assertionFailed ∧
    check_hemisphere "north" = .ok () ∧
    check_hemisphere "south" = .ok () :=
  ⟨((hemisphere_validation "east" ⟨"2020", "20200101", "2020001", false⟩ []
      "dir" "dl" "in" (fun _ => (none : Option (Grid 1))) (fun _ => false) true false false
      (fun _ _ => .ok ("", "")) (fun _ => .error .notFound) (fun _ => .error .notFound)
      (fun _ => fun _ => 0) (fun _ => none)).1 (by decide)).1,
   ((hemisphere_validation "east" ⟨"2020", "20200101", "2020001", false⟩ []
      "dir" "dl" "in" (fun _ => (none : Option (Grid 1))) (fun _ => false) true false false
      (fun _ _ => .ok ("", "")) (fun _ => .error .notFound) (fun _ => .error .notFound)
      (fun _ => fun _ => 0) (fun _ => none)).1 (by decide)).2.2.2.2.2.2.1,
   ((hemisphere_validation "east" ⟨"2020", "20200101", "2020001", false⟩ []
      "dir" "dl" "in" (fun _ => (none : Option (Grid 1))) (fun _ => false) true false false
      (fun _ _ => .ok ("", "")) (fun _ => .error .notFound) (fun _ => .error .notFound)
      (fun _ => fun _ => 0) (fun _ => none)).1 (by decide)).2.2.2.2.2.1,
   ((hemisphere_validation "east" ⟨"2020", "20200101", "2020001", false⟩ []
      "dir" "dl" "in" (fun _ => (none : Option (Grid 1))) (fun _ => false) true false false
      (fun _ _ => .ok ("", "")) (fun _ => .error .notFound) (fun _ => .error .notFound)
      (fun _ => fun _ => 0) (fun _ => none)).1 (by decide)).2.2.2.2.2.2.2.2.1,
   (hemisphere_validation "north" ⟨"2020", "20200101", "2020001", false⟩ []
      "dir" "dl" "in" (fun _ => (none : Option (Grid 1))) (fun _ => false) true false false
      (fun _ _ => .ok ("", "")) (fun _ => .error .notFound) (fun _ => .error .notFound)
      (fun _ => fun _ => 0) (fun _ => none)).2 (Or.inl rfl),
   (hemisphere_validation "south" ⟨"2020", "20200101", "2020001", false⟩ []
      "dir" "dl" "in" (fun _ => (none : Option (Grid 1))) (fun _ => false) true false false
      (fun _ _ => .ok ("", "")) (fun _ => .error .notFound) (fun _ => .error .notFound)
      (fun _ => fun _ => 0) (fun _ => none)).2 (Or.inr rfl)⟩

lemma cdr_step_skip {n : ℕ} (d : PyDate) (folder hem : String) (verbose : Bool)
    (nc_read : String → Except MizError (MGrid n)) (s' : MizStore n)
    (hs : (s' (cdr_key folder d hem)).isNone = false) :
    cdr_step_store d folder hem false nc_read s' = s' ∧
    cdr_step_computed d folder hem false nc_read s' = false ∧
    cdr_step_logs d folder hem false verbose nc_read s' =
      (if verbose then [run_log_cdr d.ymd] else []) := by
  unfold cdr_step_store cdr_step_computed cdr_step_logs
  simp [hs]

lemma nic_step_skip {n : ℕ} (d : PyDate) (folder hem : String) (verbose : Bool)
    (read_nic : String → Except MizError (List GeoRow))
    (rasterize : List (ℕ × ℚ) → Grid n) (s' : MizStore n)
    (hs : (s' (nic_key folder d hem)).isNone = false) :
    nic_step_store d folder hem false read_nic rasterize s' = s' ∧
    nic_step_computed d folder hem false read_nic s' = false ∧
    nic_step_logs d folder hem false verbose read_nic s' =
      (if verbose then [run_log_nic d.ymd] else []) := by
  unfold nic_step_store nic_step_computed nic_step_logs nic_step_err
  simp [hs]

/-- C2: with the overwrite flag false, a per-date conversion whose cache
artifact already exists does no rasterization work and does not rewrite the
store (for both products); hence running either product's conversion twice
with identical inputs (and a readable source) computes at most once — the
second run does no work and leaves the stored grid bit-identical. -/
theorem cache_skip_and_idempotent {n : ℕ} (d : PyDate) (folder hem : String) (verbose : Bool)
    (nc_read : String → Except MizError (MGrid n))
    (read_nic : String → Except MizError (List GeoRow))
    (rasterize : List (ℕ × ℚ) → Grid n) (store : MizStore n)
    (hhem : hem = "north" ∨ hem = "south") :
    (∀ g : Grid n, store (cdr_key folder d hem) = some g →
      _cdr_to_np_grid d folder hem false verbose nc_read store =
        .ok (store, false, if verbose then [run_log_cdr d.ymd] else [])) ∧
    (∀ g : Grid n, store (nic_key folder d hem) = some g →
      _nic_to_np_grid d folder hem false verbose read_nic rasterize store =
        .ok (store, false, if verbose then [run_log_nic d.ymd] else [])) ∧
    (∀ raw, nc_read (cdr_src folder d hem) = .ok raw →
      ∀ st1 c1 l1, _cdr_to_np_grid d folder hem false verbose nc_read store =
          .ok (st1, c1, l1) →
        _cdr_to_np_grid d folder hem false verbose nc_read st1 =
          .ok (st1, false, if verbose then [run_log_cdr d.ymd] else [])) ∧
    (∀ gdf shapes, read_nic (nic_src folder d hem) = .ok gdf →
      gdf.mapM (fun row => (icecode_mapping row.ICECODE).map fun v => (row.geometry, v)) =
        .ok shapes →
      ∀ st1 c1 l1, _nic_to_np_grid d folder hem false verbose read_nic rasterize store =
          .ok (st1, c1, l1) →
        _nic_to_np_grid d folder hem false verbose read_nic rasterize st1 =
          .ok (st1, false, if verbose then [run_log_nic d.ymd] else [])) := by
  refine ⟨?_, ?_, ?_, ?_⟩
  · intro g hg
    have hs : (store (cdr_key folder d hem)).isNone = false := by simp [hg]
    rw [cdr_grid_eq d folder hem false verbose nc_read store hhem]
    obtain ⟨h1, h2, h3⟩ := cdr_step_skip d folder hem verbose nc_read store hs
    rw [h1, h2, h3]
  · intro g hg
    have hs : (store (nic_key folder d hem)).isNone = false := by simp [hg]
    rw [nic_grid_eq d folder hem false verbose read_nic rasterize store hhem]
    obtain ⟨h1, h2, h3⟩ := nic_step_skip d folder hem verbose read_nic rasterize store hs
    rw [h1, h2, h3]
  · intro raw hread st1 c1 l1 h1
    rw [cdr_grid_eq d folder hem false verbose nc_read store hhem] at h1
    simp only [Except.ok.injEq, Prod.mk.injEq] at h1
    obtain ⟨hst, hcb, hlg⟩ := h1
    subst hst
    rw [cdr_grid_eq d folder hem false verbose nc_read _ hhem]
    have hsome : (cdr_step_store d folder hem false nc_read store
        (cdr_key folder d hem)).isNone = false := by
      unfold cdr_step_store
      by_cases hn : (store (cdr_key folder d hem)).isNone = true
      · rw [if_pos (Or.inr hn), hread]
        simp [store_update]
      · rw [if_neg (by simp [hn])]
        cases ho : store (cdr_key folder d hem) with
        | none => exact absurd (by simp [ho]) hn
        | some g => simp [ho]
    obtain ⟨h1, h2, h3⟩ := cdr_step_skip d folder hem verbose nc_read _ hsome
    rw [h1, h2, h3]
  · intro gdf shapes hread hmap st1 c1 l1 h1
    rw [nic_grid_eq d folder hem false verbose read_nic rasterize store hhem] at h1
    simp only [Except.ok.injEq, Prod.mk.injEq] at h1
    obtain ⟨hst, hcb, hlg⟩ := h1
    subst hst
    rw [nic_grid_eq d folder hem false verbose read_nic rasterize _ hhem]
    have hsome : (nic_step_store d folder hem false read_nic rasterize store
        (nic_key folder d hem)).isNone = false := by
      unfold nic_step_store
      by_cases hn : (store (nic_key folder d hem)).isNone = true
      · have hmap' : List.mapM.loop
            (fun row => (icecode_mapping row.ICECODE).map fun v => (row.geometry, v)) gdf [] =
            Except.ok shapes := hmap
        simp [hn, splitext_ext_nic_src, hread, hmap, hmap', store_update]
      · rw [if_neg (by simp [hn])]
        cases ho : store (nic_key folder d hem) with
        | none => exact absurd (by simp [ho]) hn
        | some g => simp [ho]
    obtain ⟨h1, h2, h3⟩ := nic_step_skip d folder hem verbose read_nic rasterize _ hsome
    rw [h1, h2, h3]

/-- Witness for C2: a CDR date converted from an empty store is stored on
the first run and skipped, unchanged, on the second; an NIC date whose
artifact exists is skipped without reading the archive; an NIC date
rasterized from an empty store (readable zip, known CT18 label) is likewise
skipped, unchanged, on the second run. -/
theorem cache_skip_and_idempotent_witness :
    _cdr_to_np_grid ⟨"2020", "20200101", "2020001", false⟩ "in" "north" false false
        (fun _ => .ok fun _ : Fin 1 => some (1 : ℚ))
        (store_update (fun _ => none)
          (cdr_key "in" ⟨"2020", "20200101", "2020001", false⟩ "north")
          (clean_cdr_grid fun _ : Fin 1 => some (1 : ℚ))) =
      .ok (store_update (fun _ => none)
             (cdr_key "in" ⟨"2020", "20200101", "2020001", false⟩ "north")
             (clean_cdr_grid fun _ : Fin 1 => some (1 : ℚ)), false, []) ∧
    _nic_to_np_grid ⟨"2020", "20200101", "2020001", false⟩ "in" "north" false false
        (fun _ => .error .notFound) (fun _ => fun _ => 0)
        (fun _ => some (fun _ : Fin 1 => (0 : ℚ))) =
      .ok ((fun _ => some fun _ : Fin 1 => (0 : ℚ)), false, []) ∧
    _nic_to_np_grid ⟨"2020", "20200101", "2020001", false⟩ "in" "north" false false
        (fun _ => .ok [⟨7, "CT18"⟩]) (fun _ => fun _ => (0 : ℚ))
        (store_update (fun _ => none)
          (nic_key "in" ⟨"2020", "20200101", "2020001", false⟩ "north")
          (fun _ : Fin 1 => (0 : ℚ))) =
      .ok (store_update (fun _ => none)
             (nic_key "in" ⟨"2020", "20200101", "2020001", false⟩ "north")
             (fun _ : Fin 1 => (0 : ℚ)), false, []) :=
  ⟨(cache_skip_and_idempotent ⟨"2020", "20200101", "2020001", false⟩ "in" "north" false
      (fun _ => .ok fun _ : Fin 1 => some (1 : ℚ)) (fun _ => .error .notFound)
      (fun _ => fun _ => 0) (fun _ => none) (Or.inl rfl)).2.2.1
      (fun _ : Fin 1 => some (1 : ℚ)) rfl _ _ _ rfl,
   (cache_skip_and_idempotent ⟨"2020", "20200101", "2020001", false⟩ "in" "north" false
      (fun _ => .ok fun _ : Fin 1 => some (1 : ℚ)) (fun _ => .error .notFound)
      (fun _ => fun _ => 0) (fun _ => some fun _ : Fin 1 => (0 : ℚ)) (Or.inl rfl)).2.1
      (fun _ : Fin 1 => (0 : ℚ)) rfl,
   (cache_skip_and_idempotent ⟨"2020", "20200101", "2020001", false⟩ "in" "north" false
      (fun _ => .ok fun _ : Fin 1 => some (1 : ℚ)) (fun _ => .ok [⟨7, "CT18"⟩])
      (fun _ => fun _ => (0 : ℚ)) (fun _ => none) (Or.inl rfl)).2.2.2
      [⟨7, "CT18"⟩] [((7 : ℕ), (18 / 100 : ℚ))] rfl rfl _ _ _ rfl⟩

/-- Counterexample for C5: a one-date range whose netCDF read fails, run
with the default `verbose=False`, produces no log output at all — the source
prints the failed date and cause only when `verbose` is set, so "the failure
is logged with the date and cause" does not hold as stated (the failure is
still caught and the run still returns normally). -/
theorem conversion_failure_logging_cex :
    cdr_to_np [⟨"2020", "20200102", "2020002", false⟩] "in" "north" false false
        (fun _ => .error .notFound) (fun _ => (none : Option (Grid 1))) =
      .ok (fun _ => none, []) := rfl

/-- C5 as amended: for a valid hemisphere and distinct dates, both range
conversions return normally whatever the per-date failures (conclusions 1
and 4 also characterize the run); every date's final cache entry is what its
own job computes from the initial store, unaffected by other dates'
failures (conclusions 2 and 5); when `verbose` is enabled, a date whose
source read raised — a missing/malformed netCDF, a missing/malformed zip
archive, or an unknown category label — is logged with the date and cause
(conclusions 3, 6 and 7); and an uncached NIC date whose reads succeed is
rasterized and cached (conclusion 8). -/
theorem conversion_failure_isolation {n : ℕ} (dates : List PyDate) (folder hem : String)
    (nc_read : String → Except MizError (MGrid n))
    (read_nic : String → Except MizError (List GeoRow))
    (rasterize : List (ℕ × ℚ) → Grid n) (store : MizStore n)
    (hhem : hem = "north" ∨ hem = "south")
    (hdist : dates.Pairwise fun a b => a.ymd ≠ b.ymd) :
    (cdr_to_np dates folder hem false true nc_read store =
      .ok (fold_store (fun dt st => cdr_step_store dt folder hem false nc_read st) dates store,
           fold_logs (fun dt st => cdr_step_store dt folder hem false nc_read st)
             (fun dt st => cdr_step_logs dt folder hem false true nc_read st) dates store)) ∧
    (∀ d ∈ dates,
      fold_store (fun dt st => cdr_step_store dt folder hem false nc_read st) dates store
          (cdr_key folder d hem) =
        cdr_step_store d folder hem false nc_read store (cdr_key folder d hem)) ∧
    (∀ d ∈ dates, ∀ e, (store (cdr_key folder d hem)).isNone = true →
      nc_read (cdr_src folder d hem) = .error e →
      fail_log d.ymd e ∈
        fold_logs (fun dt st => cdr_step_store dt folder hem false nc_read st)
          (fun dt st => cdr_step_logs dt folder hem false true nc_read st) dates store) ∧
    (nic_to_np dates folder hem false true read_nic rasterize store =
      .ok (fold_store
             (fun dt st => nic_step_store dt folder hem false read_nic rasterize st)
             dates store,
           fold_logs (fun dt st => nic_step_store dt folder hem false read_nic rasterize st)
             (fun dt st => nic_step_logs dt folder hem false true read_nic st) dates store)) ∧
    (∀ d ∈ dates,
      fold_store (fun dt st => nic_step_store dt folder hem false read_nic rasterize st)
          dates store (nic_key folder d hem) =
        nic_step_store d folder hem false read_nic rasterize store (nic_key folder d hem)) ∧
    (∀ d ∈ dates, ∀ e, (store (nic_key folder d hem)).isNone = true →
      read_nic (nic_src folder d hem) = .error e →
      fail_log d.ymd e ∈
        fold_logs (fun dt st => nic_step_store dt folder hem false read_nic rasterize st)
          (fun dt st => nic_step_logs dt folder hem false true read_nic st) dates store) ∧
    (∀ d ∈ dates, ∀ gdf e, (store (nic_key folder d hem)).isNone = true →
      read_nic (nic_src folder d hem) = .ok gdf →
      gdf.mapM (fun row => (icecode_mapping row.ICECODE).map fun v => (row.geometry, v)) =
        .error e →
      fail_log d.ymd e ∈
        fold_logs (fun dt st => nic_step_store dt folder hem false read_nic rasterize st)
          (fun dt st => nic_step_logs dt folder hem false true read_nic st) dates store) ∧
    (∀ d ∈ dates, ∀ gdf shapes, (store (nic_key folder d hem)).isNone = true →
      read_nic (nic_src folder d hem) = .ok gdf →
      gdf.mapM (fun row => (icecode_mapping row.ICECODE).map fun v => (row.geometry, v)) =
        .ok shapes →
      fold_store (fun dt st => nic_step_store dt folder hem false read_nic rasterize st)
          dates store (nic_key folder d hem) = some (rasterize shapes)) := by
  have hcdr_keys : dates.Pairwise fun a b =>
      cdr_key folder a hem ≠ cdr_key folder b hem :=
    hdist.imp fun hne hkeq => hne (cdr_key_inj folder hem _ _ hkeq)
  have hnic_keys : dates.Pairwise fun a b =>
      nic_key folder a hem ≠ nic_key folder b hem :=
    hdist.imp fun hne hkeq => hne (nic_key_inj folder hem _ _ hkeq)
  refine ⟨?_, ?_, ?_, ?_, ?_, ?_, ?_, ?_⟩
  · unfold cdr_to_np
    rw [check_hemisphere_ok hem hhem]
    exact parallel_dates_eq _ _ _ _
      (fun dt st => cdr_grid_eq dt folder hem false true nc_read st hhem) dates store
  · intro d hd
    exact fold_store_at_key _ (fun dt => cdr_key folder dt hem)
      (fun dt s k hk => cdr_step_frame dt folder hem false nc_read s k hk)
      (fun dt s1 s2 hag => cdr_step_local dt folder hem false nc_read s1 s2 hag)
      dates store hcdr_keys d hd
  · intro d hd e hnone hrd
    refine fold_logs_mem _ _ (fun dt => cdr_key folder dt hem)
      (fun dt s k hk => cdr_step_frame dt folder hem false nc_read s k hk)
      dates store d hd hcdr_keys (fail_log d.ymd e) ?_
    intro s' hs'
    unfold cdr_step_logs
    rw [hs']
    simp [hnone, hrd]
  · unfold nic_to_np
    rw [check_hemisphere_ok hem hhem]
    exact parallel_dates_eq _ _ _ _
      (fun dt st => nic_grid_eq dt folder hem false true read_nic rasterize st hhem)
      dates store
  · intro d hd
    exact fold_store_at_key _ (fun dt => nic_key folder dt hem)
      (fun dt s k hk => nic_step_frame dt folder hem false read_nic rasterize s k hk)
      (fun dt s1 s2 hag => nic_step_local dt folder hem false read_nic rasterize s1 s2 hag)
      dates store hnic_keys d hd
  · intro d hd e hnone hrd
    refine fold_logs_mem _ _ (fun dt => nic_key folder dt hem)
      (fun dt s k hk => nic_step_frame dt folder hem false read_nic rasterize s k hk)
      dates store d hd hnic_keys (fail_log d.ymd e) ?_
    intro s' hs'
    unfold nic_step_logs nic_step_err
    rw [hs']
    simp [hnone, splitext_ext_nic_src, hrd]
  · intro d hd gdf e hnone hrd hm
    refine fold_logs_mem _ _ (fun dt => nic_key folder dt hem)
      (fun dt s k hk => nic_step_frame dt folder hem false read_nic rasterize s k hk)
      dates store d hd hnic_keys (fail_log d.ymd e) ?_
    intro s' hs'
    have hm' : List.mapM.loop
        (fun row => (icecode_mapping row.ICECODE).map fun v => (row.geometry, v)) gdf [] =
        Except.error e := hm
    unfold nic_step_logs nic_step_err
    rw [hs']
    simp [hnone, splitext_ext_nic_src, hrd, hm, hm']
  · intro d hd gdf shapes hnone hrd hm
    have hat := fold_store_at_key _ (fun dt => nic_key folder dt hem)
      (fun dt s k hk => nic_step_frame dt folder hem false read_nic rasterize s k hk)
      (fun dt s1 s2 hag => nic_step_local dt folder hem false read_nic rasterize s1 s2 hag)
      dates store hnic_keys d hd
    rw [hat]
    have hm' : List.mapM.loop
        (fun row => (icecode_mapping row.ICECODE).map fun v => (row.geometry, v)) gdf [] =
        Except.ok shapes := hm
    unfold nic_step_store
    simp [hnone, splitext_ext_nic_src, hrd, hm, hm', store_update]

/-- Witness for the amended C5: a two-date range (verbose on) where the
second date's CDR netCDF is missing and its NIC archive holds an unknown
ICECODE label: the first date's CDR cache entry is what its own job computes
from the initial store, both of the second date's failures are logged with
the date and cause, and the first NIC date is rasterized and cached. -/
theorem conversion_failure_isolation_witness :
    fold_store (fun dt st => cdr_step_store dt "in" "north" false
        (fun s => if s = cdr_src "in" ⟨"2020", "20200102", "2020002", false⟩ "north"
          then .error .notFound else .ok fun _ : Fin 1 => some (1 : ℚ)) st)
      [⟨"2020", "20200101", "2020001", false⟩, ⟨"2020", "20200102", "2020002", false⟩]
      (fun _ => none)
      (cdr_key "in" ⟨"2020", "20200101", "2020001", false⟩ "north") =
    cdr_step_store ⟨"2020", "20200101", "2020001", false⟩ "in" "north" false
      (fun s => if s = cdr_src "in" ⟨"2020", "20200102", "2020002", false⟩ "north"
        then .error .notFound else .ok fun _ : Fin 1 => some (1 : ℚ))
      (fun _ => none)
      (cdr_key "in" ⟨"2020", "20200101", "2020001", false⟩ "north") ∧
    fail_log "20200102" .notFound ∈
      fold_logs (fun dt st => cdr_step_store dt "in" "north" false
          (fun s => if s = cdr_src "in" ⟨"2020", "20200102", "2020002", false⟩ "north"
            then .error .notFound else .ok fun _ : Fin 1 => some (1 : ℚ)) st)
        (fun dt st => cdr_step_logs dt "in" "north" false true
          (fun s => if s = cdr_src "in" ⟨"2020", "20200102", "2020002", false⟩ "north"
            then .error .notFound else .ok fun _ : Fin 1 => some (1 : ℚ)) st)
        [⟨"2020", "20200101", "2020001", false⟩, ⟨"2020", "20200102", "2020002", false⟩]
        (fun _ => none) ∧
    fail_log "20200102" .unknownCategory ∈
      fold_logs (fun dt st => nic_step_store dt "in" "north" false
          (fun s => if s = nic_src "in" ⟨"2020", "20200102", "2020002", false⟩ "north"
            then .ok [⟨7, "XYZ"⟩] else .ok [⟨7, "CT18"⟩])
          (fun _ => fun _ : Fin 1 => (0 : ℚ)) st)
        (fun dt st => nic_step_logs dt "in" "north" false true
          (fun s => if s = nic_src "in" ⟨"2020", "20200102", "2020002", false⟩ "north"
            then .ok [⟨7, "XYZ"⟩] else .ok [⟨7, "CT18"⟩]) st)
        [⟨"2020", "20200101", "2020001", false⟩, ⟨"2020", "20200102", "2020002", false⟩]
        (fun _ => none) ∧
    fold_store (fun dt st => nic_step_store dt "in" "north" false
        (fun s => if s = nic_src "in" ⟨"2020", "20200102", "2020002", false⟩ "north"
          then .ok [⟨7, "XYZ"⟩] else .ok [⟨7, "CT18"⟩])
        (fun _ => fun _ : Fin 1 => (0 : ℚ)) st)
      [⟨"2020", "20200101", "2020001", false⟩, ⟨"2020", "20200102", "2020002", false⟩]
      (fun _ => none)
      (nic_key "in" ⟨"2020", "20200101", "2020001", false⟩ "north") =
    some (fun _ : Fin 1 => (0 : ℚ)) :=
  ⟨(conversion_failure_isolation
      [⟨"2020", "20200101", "2020001", false⟩, ⟨"2020", "20200102", "2020002", false⟩]
      "in" "north"
      (fun s => if s = cdr_src "in" ⟨"2020", "20200102", "2020002", false⟩ "north"
        then .error .notFound else .ok fun _ : Fin 1 => some (1 : ℚ))
      (fun s => if s = nic_src "in" ⟨"2020", "20200102", "2020002", false⟩ "north"
        then .ok [⟨7, "XYZ"⟩] else .ok [⟨7, "CT18"⟩])
      (fun _ => fun _ => 0) (fun _ => none)
      (Or.inl rfl) (by decide)).2.1
      ⟨"2020", "20200101", "2020001", false⟩ (by decide),
   (conversion_failure_isolation
      [⟨"2020", "20200101", "2020001", false⟩, ⟨"2020", "20200102", "2020002", false⟩]
      "in" "north"
      (fun s => if s = cdr_src "in" ⟨"2020", "20200102", "2020002", false⟩ "north"
        then .error .notFound else .ok fun _ : Fin 1 => some (1 : ℚ))
      (fun s => if s = nic_src "in" ⟨"2020", "20200102", "2020002", false⟩ "north"
        then .ok [⟨7, "XYZ"⟩] else .ok [⟨7, "CT18"⟩])
      (fun _ => fun _ => 0) (fun _ => none)
      (Or.inl rfl) (by decide)).2.2.1
      ⟨"2020", "20200102", "2020002", false⟩ (by decide) .notFound rfl rfl,
   (conversion_failure_isolation
      [⟨"2020", "20200101", "2020001", false⟩, ⟨"2020", "20200102", "2020002", false⟩]
      "in" "north"
      (fun s => if s = cdr_src "in" ⟨"2020", "20200102", "2020002", false⟩ "north"
        then .error .notFound else .ok fun _ : Fin 1 => some (1 : ℚ))
      (fun s => if s = nic_src "in" ⟨"2020", "20200102", "2020002", false⟩ "north"
        then .ok [⟨7, "XYZ"⟩] else .ok [⟨7, "CT18"⟩])
      (fun _ => fun _ => 0) (fun _ => none)
      (Or.inl rfl) (by decide)).2.2.2.2.2.2.1
      ⟨"2020", "20200102", "2020002", false⟩ (by decide) [⟨7, "XYZ"⟩] .unknownCategory
      rfl rfl rfl,
   (conversion_failure_isolation
      [⟨"2020", "20200101", "2020001", false⟩, ⟨"2020", "20200102", "2020002", false⟩]
      "in" "north"
      (fun s => if s = cdr_src "in" ⟨"2020", "20200102", "2020002", false⟩ "north"
        then .error .notFound else .ok fun _ : Fin 1 => some (1 : ℚ))
      (fun s => if s = nic_src "in" ⟨"2020", "20200102", "2020002", false⟩ "north"
        then .ok [⟨7, "XYZ"⟩] else .ok [⟨7, "CT18"⟩])
      (fun _ => fun _ => 0) (fun _ => none)
      (Or.inl rfl) (by decide)).2.2.2.2.2.2.2
      ⟨"2020", "20200101", "2020001", false⟩ (by decide) [⟨7, "CT18"⟩]
      [((7 : ℕ), (18 / 100 : ℚ))] rfl rfl rfl⟩
